import Mathlib

/-!
Shallow embedding of the writing-prompt bot (`src/main.py`).

The per-user engagement state is a SQLite row; we embed the table as a list
of records and each handler / scheduled job as a pure function from the
current database (plus the prompt catalog source, the clock and the
behaviour of the outbound transport) to the messages sent, the new database,
and whether the handler finished without an uncaught exception.

Outbound sends (`context.bot.send_message` / `reply_text`) may fail; a
failure raises, so everything after it in the handler does not run.  We
model this with a `sendOk : Msg → Bool` oracle: `sendOk m = false` means
sending `m` raises.  `sendAlways` is the oracle under which every send
succeeds.

`last_prompt_ts` is stored as TEXT and parsed with
`datetime.fromisoformat` in the reminder scan, so a stored value is either
a timestamp that parses (`StoredTs.valid t`, with time as an `Int` of
seconds) or an unparseable string (`StoredTs.corrupt`);
`db_mark_prompt_sent` always writes `isoformat()` output, which parses
back, hence writes `StoredTs.valid`.
-/

namespace WPBot

/-- A stored `last_prompt_ts` TEXT value: either it parses to a time
(seconds, as `Int`) or it is corrupt (parse raises). -/
inductive StoredTs where
  | valid (t : Int)
  | corrupt
deriving DecidableEq, Repr

/-- One row of the `users` table (src/main.py, `db_init`). -/
structure UserRecord where
  userId : Nat
  promptIndex : Nat
  lastPromptTs : Option StoredTs
  answered : Bool
  reminderSent : Bool
deriving DecidableEq, Repr

/-- The `users` table, in rowid (insertion) order. -/
abbrev Db := List UserRecord

/-- Default row created by `INSERT OR IGNORE INTO users (user_id) VALUES (?)`:
`prompt_index = 0`, `last_prompt_ts = NULL`, `answered = 0`,
`reminder_sent = 0`. -/
def defaultRecord (uid : Nat) : UserRecord :=
  { userId := uid, promptIndex := 0, lastPromptTs := none,
    answered := false, reminderSent := false }

/-- `db_ensure_user`: `INSERT OR IGNORE` — appends a default row unless a
row with this primary key exists. -/
def db_ensure_user (uid : Nat) (db : Db) : Db :=
  if db.any (fun r => r.userId == uid) then db else db ++ [defaultRecord uid]

/-- `db_get_user`: `SELECT * FROM users WHERE user_id = ?`, first match. -/
def db_get_user (uid : Nat) (db : Db) : Option UserRecord :=
  db.find? (fun r => r.userId == uid)

/-- `db_mark_prompt_sent`: sets `prompt_index`, `last_prompt_ts`
(as `isoformat()` text, which parses back), `answered = 0`,
`reminder_sent = 0` on the row with this user id. -/
def db_mark_prompt_sent (uid : Nat) (idx : Nat) (t : Int) (db : Db) : Db :=
  db.map fun r =>
    if r.userId == uid then
      { r with promptIndex := idx, lastPromptTs := some (StoredTs.valid t),
               answered := false, reminderSent := false }
    else r

/-- `db_mark_answered`: `SET answered = 1 WHERE user_id = ?`. -/
def db_mark_answered (uid : Nat) (db : Db) : Db :=
  db.map fun r => if r.userId == uid then { r with answered := true } else r

/-- `db_mark_reminder_sent`: `SET reminder_sent = 1 WHERE user_id = ?`. -/
def db_mark_reminder_sent (uid : Nat) (db : Db) : Db :=
  db.map fun r => if r.userId == uid then { r with reminderSent := true } else r

/-- `stop`'s `DELETE FROM users WHERE user_id = ?`. -/
def db_delete_user (uid : Nat) (db : Db) : Db :=
  db.filter fun r => r.userId != uid

/-- `db_all_users`: `SELECT * FROM users` — a snapshot of the table. -/
def db_all_users (db : Db) : List UserRecord := db

/-- An outbound message, by kind: a prompt (`send_prompt_to_user`, carrying
the catalog text), the reminder text (`message.reminder`), or a command /
text reply identified by its locale key. -/
inductive Msg where
  | prompt (uid : Nat) (text : String)
  | reminder (uid : Nat)
  | reply (uid : Nat) (key : String)
deriving DecidableEq, Repr

/-- Oracle under which every outbound send succeeds. -/
def sendAlways : Msg → Bool := fun _ => true

/-- Result of running one handler or job: messages actually delivered, the
database afterwards, and `ok = false` when an uncaught exception escaped. -/
structure RunResult where
  msgs : List Msg
  db : Db
  ok : Bool
deriving DecidableEq, Repr

/-- The `prompts.json` source as found at a given moment: missing file,
JSON that is not an array of strings, or an array of strings. -/
inductive PromptsSource where
  | missing
  | malformed
  | present (xs : List String)
deriving DecidableEq, Repr

/-- `load_prompts`: opens and parses `prompts.json` at call time; raises
(`FileNotFoundError` / `ValueError`) on a missing file, on JSON that is not
an array of strings, and on an empty array. -/
def load_prompts : PromptsSource → Except String (List String)
  | PromptsSource.missing => Except.error "FileNotFoundError"
  | PromptsSource.malformed =>
      Except.error "prompts.json must be a JSON array of strings"
  | PromptsSource.present xs =>
      if xs.isEmpty then Except.error "prompts.json is empty" else Except.ok xs

/-- `maybe_send_next_prompt` (one user of the daily job): if the row's
`answered` is not 1, send the reminder text and return; otherwise send the
prompt at `(prompt_index + 1) % len(prompts)` and, after the send
succeeded, `db_mark_prompt_sent`.  A failed send raises, so the database
write does not happen. -/
def maybe_send_next_prompt (sendOk : Msg → Bool) (prompts : List String)
    (t : Int) (u : UserRecord) (db : Db) : RunResult :=
  if u.answered = false then
    let m := Msg.reminder u.userId
    if sendOk m then ⟨[m], db, true⟩ else ⟨[], db, false⟩
  else
    let nextIdx := (u.promptIndex + 1) % prompts.length
    let m := Msg.prompt u.userId (prompts.getD nextIdx "")
    if sendOk m then
      ⟨[m], db_mark_prompt_sent u.userId nextIdx t db, true⟩
    else ⟨[], db, false⟩

/-- The `for u in db_all_users()` loop of `daily_9_msk_job`: each user in
turn; an exception while processing one user propagates and aborts the
loop (there is no try/except around the body). -/
def runUsers (sendOk : Msg → Bool) (prompts : List String) (t : Int) :
    List UserRecord → Db → RunResult
  | [], db => ⟨[], db, true⟩
  | u :: rest, db =>
    let r := maybe_send_next_prompt sendOk prompts t u db
    if r.ok then
      let r2 := runUsers sendOk prompts t rest r.db
      ⟨r.msgs ++ r2.msgs, r2.db, r2.ok⟩
    else ⟨r.msgs, r.db, false⟩

/-- `daily_9_msk_job`: reads `prompts.json` (raising aborts the job before
any user is processed), takes one `now_msk()` timestamp, then runs the
per-user loop over a snapshot of the table. -/
def daily_9_msk_job (sendOk : Msg → Bool) (src : PromptsSource) (t : Int)
    (db : Db) : RunResult :=
  match load_prompts src with
  | Except.error _ => ⟨[], db, false⟩
  | Except.ok prompts => runUsers sendOk prompts t (db_all_users db) db

/-- One user of `reminder_scan_job`: skip on NULL `last_prompt_ts`, on
`answered = 1`, on `reminder_sent = 1`, and on an unparseable timestamp
(the try/except); otherwise, if 24 hours have elapsed, send the reminder
and then `db_mark_reminder_sent`. -/
def reminder_scan_step (sendOk : Msg → Bool) (now : Int) (u : UserRecord)
    (db : Db) : RunResult :=
  match u.lastPromptTs with
  | none => ⟨[], db, true⟩
  | some ts =>
    if u.answered then ⟨[], db, true⟩
    else if u.reminderSent then ⟨[], db, true⟩
    else
      match ts with
      | StoredTs.corrupt => ⟨[], db, true⟩
      | StoredTs.valid last =>
        if 24 * 3600 ≤ now - last then
          let m := Msg.reminder u.userId
          if sendOk m then ⟨[m], db_mark_reminder_sent u.userId db, true⟩
          else ⟨[], db, false⟩
        else ⟨[], db, true⟩

/-- The `for u in db_all_users()` loop of `reminder_scan_job`; as in the
daily job, an uncaught exception (a failed send) aborts the loop. -/
def reminderRun (sendOk : Msg → Bool) (now : Int) :
    List UserRecord → Db → RunResult
  | [], db => ⟨[], db, true⟩
  | u :: rest, db =>
    let r := reminder_scan_step sendOk now u db
    if r.ok then
      let r2 := reminderRun sendOk now rest r.db
      ⟨r.msgs ++ r2.msgs, r2.db, r2.ok⟩
    else ⟨r.msgs, r.db, false⟩

/-- `reminder_scan_job`: one `now_msk()` timestamp, then the per-user loop
over a snapshot of the table. -/
def reminder_scan_job (sendOk : Msg → Bool) (now : Int) (db : Db) :
    RunResult :=
  reminderRun sendOk now (db_all_users db) db

/-- `start` (the `/start` command): `db_ensure_user`, then `load_prompts`
(raising aborts the handler), then re-read the row; on NULL
`last_prompt_ts` reply `reply.sub`, send `prompts[0]` and
`db_mark_prompt_sent(user_id, 0, now_msk())`; otherwise reply
`reply.err.alreadysub`. -/
def start (sendOk : Msg → Bool) (src : PromptsSource) (t : Int) (uid : Nat)
    (db : Db) : RunResult :=
  let db1 := db_ensure_user uid db
  match load_prompts src with
  | Except.error _ => ⟨[], db1, false⟩
  | Except.ok prompts =>
    match db_get_user uid db1 with
    | none => ⟨[], db1, false⟩
    | some u =>
      match u.lastPromptTs with
      | none =>
        let r := Msg.reply uid "reply.sub"
        if sendOk r then
          let m := Msg.prompt uid (prompts.getD 0 "")
          if sendOk m then
            ⟨[r, m], db_mark_prompt_sent uid 0 t db1, true⟩
          else ⟨[r], db1, false⟩
        else ⟨[], db1, false⟩
      | some _ =>
        let r := Msg.reply uid "reply.err.alreadysub"
        if sendOk r then ⟨[r], db1, true⟩ else ⟨[], db1, false⟩

/-- `stop` (the `/stop` command): unconditional `DELETE`, then reply
`reply.unsub`. -/
def stop (sendOk : Msg → Bool) (uid : Nat) (db : Db) : RunResult :=
  let db1 := db_delete_user uid db
  let r := Msg.reply uid "reply.unsub"
  if sendOk r then ⟨[r], db1, true⟩ else ⟨[], db1, false⟩

/-- `on_text` (inbound free text): `db_ensure_user`, re-read the row; on
NULL `last_prompt_ts` reply `reply.err.noinitprompt`; on `answered = 1`
reply `reply.complete.received`; otherwise `db_mark_answered` and then
reply `reply.complete.received`. -/
def on_text (sendOk : Msg → Bool) (uid : Nat) (db : Db) : RunResult :=
  let db1 := db_ensure_user uid db
  match db_get_user uid db1 with
  | none => ⟨[], db1, false⟩
  | some u =>
    match u.lastPromptTs with
    | none =>
      let r := Msg.reply uid "reply.err.noinitprompt"
      if sendOk r then ⟨[r], db1, true⟩ else ⟨[], db1, false⟩
    | some _ =>
      if u.answered then
        let r := Msg.reply uid "reply.complete.received"
        if sendOk r then ⟨[r], db1, true⟩ else ⟨[], db1, false⟩
      else
        let db2 := db_mark_answered uid db1
        let r := Msg.reply uid "reply.complete.received"
        if sendOk r then ⟨[r], db2, true⟩ else ⟨[], db2, false⟩

/-- The observable startup steps of `main()`, in order.  Note what is NOT
here: `main` never calls `load_prompts`, and the `run_repeating` call for
`reminder_scan_job` is commented out in the source. -/
inductive Effect where
  | loadDotenv
  | loadLocales
  | dbInit
  | addHandlers
  | scheduleDailyJob
  | runPolling
  | loadCatalog
deriving DecidableEq, Repr

/-- `main()`: requires a `.env` file and a non-empty `TELEGRAM_BOT_TOKEN`,
then loads locales, initialises the database, registers the three
handlers, schedules the daily 9:00 MSK job, and starts polling.  It takes
the catalog source only to show it is never consulted at startup. -/
def main_startup (dotenvPresent : Bool) (token : Option String)
    (_src : PromptsSource) : Except String (List Effect) :=
  if dotenvPresent = false then Except.error "no .env file"
  else
    match token with
    | none => Except.error "TELEGRAM_BOT_TOKEN?"
    | some tok =>
      if tok = "" then Except.error "TELEGRAM_BOT_TOKEN?"
      else
        Except.ok [Effect.loadLocales, Effect.dbInit, Effect.addHandlers,
                   Effect.scheduleDailyJob, Effect.runPolling]

/-- The condition under which `reminder_scan_job` reaches the send for a
row: a parseable timestamp, not answered, reminder not yet sent, and at
least 24 hours elapsed. -/
def reminderDue (now : Int) (u : UserRecord) : Bool :=
  match u.lastPromptTs with
  | some (StoredTs.valid last) =>
      !u.answered && !u.reminderSent && decide (24 * 3600 ≤ now - last)
  | _ => false

/-- The message the reminder scan sends for a row, if any. -/
def dueMsg (now : Int) (u : UserRecord) : Option Msg :=
  if reminderDue now u then some (Msg.reminder u.userId) else none

/-- The database writes the reminder scan performs for a batch of rows. -/
def applyDue (now : Int) (db : Db) (rows : List UserRecord) : Db :=
  rows.foldl
    (fun d u => if reminderDue now u then db_mark_reminder_sent u.userId d
                else d) db

/-! ### Helper lemmas about the database operations -/

lemma db_get_user_beq_of_some {uid : Nat} {db : Db} {u : UserRecord}
    (h : db_get_user uid db = some u) : (u.userId == uid) = true := by
  have h' : db.find? (fun r => r.userId == uid) = some u := h
  have hx := List.find?_some h'
  simpa using hx

lemma db_mem_of_get_some {uid : Nat} {db : Db} {u : UserRecord}
    (h : db_get_user uid db = some u) : u ∈ db := by
  have h' : db.find? (fun r => r.userId == uid) = some u := h
  exact List.mem_of_find?_eq_some h'

lemma db_get_user_cons (uid : Nat) (r : UserRecord) (rest : Db) :
    db_get_user uid (r :: rest) =
      if r.userId == uid then some r else db_get_user uid rest := by
  by_cases h : (r.userId == uid) = true
  · simp [db_get_user, List.find?_cons_of_pos, h]
  · simp [db_get_user, List.find?_cons_of_neg, h]

lemma db_get_user_map (uid : Nat) (g : UserRecord → UserRecord)
    (hg : ∀ r, (g r).userId = r.userId) (db : Db) :
    db_get_user uid (db.map g) = (db_get_user uid db).map g := by
  induction db with
  | nil => rfl
  | cons r rest ih =>
    rw [List.map_cons, db_get_user_cons, db_get_user_cons, hg r]
    by_cases h : (r.userId == uid) = true <;> simp [h, ih]

lemma userId_mark_prompt_sent (uid : Nat) (idx : Nat) (t : Int)
    (r : UserRecord) :
    ((fun r => if r.userId == uid then
        { r with promptIndex := idx, lastPromptTs := some (StoredTs.valid t),
                 answered := false, reminderSent := false }
      else r) r).userId = r.userId := by
  obtain ⟨a, b, c, d, e⟩ := r
  by_cases h : (a == uid) = true <;> simp [h]

lemma db_get_user_mark_prompt_sent (uid : Nat) (idx : Nat) (t : Int)
    (db : Db) (u : UserRecord) (h : db_get_user uid db = some u) :
    db_get_user uid (db_mark_prompt_sent uid idx t db) =
      some { u with promptIndex := idx,
                    lastPromptTs := some (StoredTs.valid t),
                    answered := false, reminderSent := false } := by
  have hu : u.userId = uid := by simpa using db_get_user_beq_of_some h
  rw [db_mark_prompt_sent, db_get_user_map uid _ (userId_mark_prompt_sent uid idx t), h]
  simp [hu]

lemma userId_mark_answered (uid : Nat) (r : UserRecord) :
    ((fun r => if r.userId == uid then { r with answered := true } else r)
      r).userId = r.userId := by
  obtain ⟨a, b, c, d, e⟩ := r
  by_cases h : (a == uid) = true <;> simp [h]

lemma db_get_user_mark_answered (uid : Nat) (db : Db) (u : UserRecord)
    (h : db_get_user uid db = some u) :
    db_get_user uid (db_mark_answered uid db) =
      some { u with answered := true } := by
  have hu : u.userId = uid := by simpa using db_get_user_beq_of_some h
  rw [db_mark_answered, db_get_user_map uid _ (userId_mark_answered uid), h]
  simp [hu]

lemma userId_mark_reminder_sent (uid : Nat) (r : UserRecord) :
    ((fun r => if r.userId == uid then { r with reminderSent := true } else r)
      r).userId = r.userId := by
  obtain ⟨a, b, c, d, e⟩ := r
  by_cases h : (a == uid) = true <;> simp [h]

lemma db_get_user_mark_reminder_sent_ne (uid vid : Nat) (db : Db)
    (h : uid ≠ vid) :
    db_get_user vid (db_mark_reminder_sent uid db) = db_get_user vid db := by
  rw [db_mark_reminder_sent,
      db_get_user_map vid _ (userId_mark_reminder_sent uid)]
  cases hf : db_get_user vid db with
  | none => rfl
  | some u =>
    have hv : u.userId = vid := by simpa using db_get_user_beq_of_some hf
    have hne : u.userId ≠ uid := by
      rw [hv]
      exact fun hc => h hc.symm
    simp [hne]

lemma db_ensure_user_of_some (uid : Nat) (db : Db) (u : UserRecord)
    (h : db_get_user uid db = some u) : db_ensure_user uid db = db := by
  have hmem : u ∈ db := db_mem_of_get_some h
  have hp : (u.userId == uid) = true := db_get_user_beq_of_some h
  have : db.any (fun r => r.userId == uid) = true :=
    List.any_eq_true.mpr ⟨u, hmem, hp⟩
  simp [db_ensure_user, this]

lemma db_ensure_user_of_none (uid : Nat) (db : Db)
    (h : db_get_user uid db = none) :
    db_ensure_user uid db = db ++ [defaultRecord uid] := by
  have : db.any (fun r => r.userId == uid) = false := by
    rw [List.any_eq_false]
    intro x hx
    exact List.find?_eq_none.mp h x hx
  simp [db_ensure_user, this]

lemma db_get_user_default (uid : Nat) :
    db_get_user uid [defaultRecord uid] = some (defaultRecord uid) := by
  simp [db_get_user, defaultRecord]

lemma db_get_user_ensure_of_none (uid : Nat) (db : Db)
    (h : db_get_user uid db = none) :
    db_get_user uid (db_ensure_user uid db) = some (defaultRecord uid) := by
  rw [db_ensure_user_of_none uid db h, db_get_user, List.find?_append]
  rw [db_get_user] at h
  rw [h]
  simpa [db_get_user] using db_get_user_default uid

lemma db_get_user_delete_self (uid : Nat) (db : Db) :
    db_get_user uid (db_delete_user uid db) = none := by
  rw [db_get_user, List.find?_eq_none]
  intro x hx
  have hxmem := List.of_mem_filter hx
  simp only [bne_iff_ne, ne_eq] at hxmem
  simp [hxmem]

lemma db_delete_user_idem (uid : Nat) (db : Db) :
    db_delete_user uid (db_delete_user uid db) = db_delete_user uid db := by
  rw [db_delete_user, db_delete_user, List.filter_filter]
  simp

/-! ### Characterisation of the reminder scan and the daily loop -/

lemma reminder_scan_step_char (now : Int) (u : UserRecord) (db : Db) :
    reminder_scan_step sendAlways now u db =
      if reminderDue now u then
        ⟨[Msg.reminder u.userId], db_mark_reminder_sent u.userId db, true⟩
      else ⟨[], db, true⟩ := by
  unfold reminder_scan_step reminderDue sendAlways
  cases hts : u.lastPromptTs with
  | none => simp
  | some ts =>
    cases ts with
    | corrupt => cases hA : u.answered <;> cases hR : u.reminderSent <;> simp
    | valid last =>
      cases hA : u.answered <;> cases hR : u.reminderSent <;>
        by_cases hT : 24 * 3600 ≤ now - last <;> simp [hT]

lemma reminderRun_char (now : Int) (rows : List UserRecord) (db : Db) :
    reminderRun sendAlways now rows db =
      ⟨rows.filterMap (dueMsg now), applyDue now db rows, true⟩ := by
  induction rows generalizing db with
  | nil => rfl
  | cons u rest ih =>
    rw [reminderRun]
    rw [reminder_scan_step_char]
    by_cases hd : reminderDue now u = true
    · simp only [hd, if_true]
      rw [ih]
      simp [List.filterMap_cons, dueMsg, hd, applyDue]
    · simp only [if_neg hd]
      rw [ih]
      simp [List.filterMap_cons, dueMsg, hd, applyDue]

lemma db_get_user_applyDue (now : Int) (vid : Nat) (rows : List UserRecord)
    (db : Db) (h : ∀ r ∈ rows, reminderDue now r = true → r.userId ≠ vid) :
    db_get_user vid (applyDue now db rows) = db_get_user vid db := by
  induction rows generalizing db with
  | nil => rfl
  | cons u rest ih =>
    rw [applyDue, List.foldl_cons]
    by_cases hd : reminderDue now u = true
    · rw [if_pos hd]
      have hne : u.userId ≠ vid := h u (by simp) hd
      rw [← applyDue, ih _ (fun r hr => h r (by simp [hr]))]
      exact db_get_user_mark_reminder_sent_ne u.userId vid db hne
    · rw [if_neg hd, ← applyDue]
      exact ih _ (fun r hr => h r (by simp [hr]))

lemma db_get_user_append_of_none (uid : Nat) (l1 l2 : Db)
    (h : db_get_user uid l1 = none) :
    db_get_user uid (l1 ++ l2) = db_get_user uid l2 := by
  rw [db_get_user, List.find?_append]
  rw [db_get_user] at h
  rw [h]
  rfl

lemma db_get_user_of_all_ne (uid : Nat) (l : Db)
    (h : ∀ r ∈ l, r.userId ≠ uid) : db_get_user uid l = none := by
  rw [db_get_user, List.find?_eq_none]
  intro x hx
  simp [h x hx]

/-- A failing per-user step of the daily loop sends nothing and leaves the
database untouched (both failure branches of `maybe_send_next_prompt`). -/
lemma maybe_send_next_prompt_fail (sendOk : Msg → Bool)
    (prompts : List String) (t : Int) (u : UserRecord) (db : Db)
    (h : (maybe_send_next_prompt sendOk prompts t u db).ok = false) :
    maybe_send_next_prompt sendOk prompts t u db = ⟨[], db, false⟩ := by
  simp only [maybe_send_next_prompt] at h ⊢
  by_cases hA : u.answered = false
  · rw [if_pos hA] at h ⊢
    by_cases hs : sendOk (Msg.reminder u.userId) = true
    · rw [if_pos hs] at h
      exact absurd h (by simp)
    · rw [if_neg hs]
  · rw [if_neg hA] at h ⊢
    by_cases hs : sendOk (Msg.prompt u.userId
        (prompts.getD ((u.promptIndex + 1) % prompts.length) "")) = true
    · rw [if_pos hs] at h
      exact absurd h (by simp)
    · rw [if_neg hs]

/-- Index arithmetic of the cyclic advance. -/
lemma iterate_mod_add (N k i : Nat) (h : i < N) :
    (fun j => (j + 1) % N)^[k] i = (i + k) % N := by
  induction k generalizing i with
  | zero => simpa using (Nat.mod_eq_of_lt h).symm
  | succ k ih =>
    have hN : 0 < N := Nat.lt_of_le_of_lt (Nat.zero_le i) h
    rw [Function.iterate_succ_apply]
    rw [ih ((i + 1) % N) (Nat.mod_lt _ hN)]
    rw [Nat.mod_add_mod]
    congr 1
    omega

/-- A successful `load_prompts` never returns an empty catalog. -/
lemma load_prompts_ok_ne_nil (src : PromptsSource) (ps : List String)
    (h : load_prompts src = Except.ok ps) : ps ≠ [] := by
  cases src with
  | missing => cases h
  | malformed => cases h
  | present xs =>
    by_cases hxs : xs.isEmpty = true
    · simp [load_prompts, hxs] at h
    · simp [load_prompts, hxs] at h
      subst h
      simpa [List.isEmpty_iff] using hxs

/-! ### Claims -/

/-- C1, counterexample: a record that was never prompted
(`lastPromptTs = none`, hence `answered = false`) is NOT advanced to
prompt 0 by the daily dispatch step — `maybe_send_next_prompt` has no
bootstrap branch, so the user gets the reminder text, no prompt is sent
and nothing is recorded. -/
theorem C1_counterexample :
    maybe_send_next_prompt sendAlways ["P0", "P1"] 5
        ⟨1, 0, none, false, false⟩ [⟨1, 0, none, false, false⟩] =
      ⟨[Msg.reminder 1], [⟨1, 0, none, false, false⟩], true⟩
  ∧ (maybe_send_next_prompt sendAlways ["P0", "P1"] 5
        ⟨1, 0, none, false, false⟩ [⟨1, 0, none, false, false⟩]).msgs ≠
      [Msg.prompt 1 "P0"]
  ∧ (maybe_send_next_prompt sendAlways ["P0", "P1"] 5
        ⟨1, 0, none, false, false⟩ [⟨1, 0, none, false, false⟩]).db ≠
      db_mark_prompt_sent 1 0 5 [⟨1, 0, none, false, false⟩] :=
  ⟨by decide, by decide, by decide⟩

/-- C1 (amended): only the subscribe handler bootstraps a never-prompted
user — `/start` on a record with absent `lastPromptTs` sends `catalog[0]`
and records it via `db_mark_prompt_sent`; the daily dispatch step applied
to a never-prompted record (`answered = false`) sends the reminder text
and leaves the database unchanged. -/
theorem C1_amended (src : PromptsSource) (ps ps2 : List String)
    (t t2 : Int) (uid : Nat) (db db2 : Db) (u v : UserRecord)
    (hload : load_prompts src = Except.ok ps)
    (hget : db_get_user uid (db_ensure_user uid db) = some u)
    (hts : u.lastPromptTs = none)
    (_hv1 : v.lastPromptTs = none) (hv2 : v.answered = false) :
    start sendAlways src t uid db =
      ⟨[Msg.reply uid "reply.sub", Msg.prompt uid (ps.getD 0 "")],
       db_mark_prompt_sent uid 0 t (db_ensure_user uid db), true⟩
  ∧ maybe_send_next_prompt sendAlways ps2 t2 v db2 =
      ⟨[Msg.reminder v.userId], db2, true⟩ := by
  constructor
  · simp only [start, hload, hget, hts, sendAlways, if_true]
  · simp only [maybe_send_next_prompt, hv2, if_true, sendAlways]

/-- Witness for `C1_amended` at a concrete input. -/
theorem C1_witness :
    start sendAlways (PromptsSource.present ["P0", "P1"]) 3 7 [] =
      ⟨[Msg.reply 7 "reply.sub", Msg.prompt 7 "P0"],
       db_mark_prompt_sent 7 0 3 (db_ensure_user 7 []), true⟩
  ∧ maybe_send_next_prompt sendAlways ["P0", "P1"] 4
      ⟨8, 0, none, false, false⟩ [⟨8, 0, none, false, false⟩] =
      ⟨[Msg.reminder 8], [⟨8, 0, none, false, false⟩], true⟩ :=
  C1_amended (PromptsSource.present ["P0", "P1"]) ["P0", "P1"]
    ["P0", "P1"] 3 4 7 [] [⟨8, 0, none, false, false⟩]
    (defaultRecord 7) ⟨8, 0, none, false, false⟩
    (by rfl) (by decide) (by decide) (by decide) (by decide)

/-- C2, counterexample: two users, both with `answered = true`; the send
of user 1's next prompt fails.  The daily job aborts: user 2 receives no
message and user 2's record is not advanced, so a failure for one user
does prevent processing of the remaining users.  Alone in a batch,
user 2 would have been advanced to prompt index 1. -/
theorem C2_counterexample :
    daily_9_msk_job
        (fun m => match m with | Msg.prompt 1 _ => false | _ => true)
        (PromptsSource.present ["P0", "P1"]) 10
        [⟨1, 0, some (StoredTs.valid 0), true, false⟩,
         ⟨2, 0, some (StoredTs.valid 0), true, false⟩] =
      ⟨[], [⟨1, 0, some (StoredTs.valid 0), true, false⟩,
            ⟨2, 0, some (StoredTs.valid 0), true, false⟩], false⟩
  ∧ daily_9_msk_job
        (fun m => match m with | Msg.prompt 1 _ => false | _ => true)
        (PromptsSource.present ["P0", "P1"]) 10
        [⟨2, 0, some (StoredTs.valid 0), true, false⟩] =
      ⟨[Msg.prompt 2 "P1"],
       [⟨2, 1, some (StoredTs.valid 10), false, false⟩], true⟩ :=
  ⟨by decide, by decide⟩

/-- C2 (amended): the daily dispatch loop has no per-user exception
isolation — when processing of the first user in the batch fails (its
send raises), the job stops there: no message is delivered, the database
is unchanged, and the remaining users of the batch are not processed. -/
theorem C2_amended (sendOk : Msg → Bool) (src : PromptsSource)
    (ps : List String) (t : Int) (u : UserRecord) (rest : List UserRecord)
    (hload : load_prompts src = Except.ok ps)
    (hfail : (maybe_send_next_prompt sendOk ps t u (u :: rest)).ok = false) :
    runUsers sendOk ps t (u :: rest) (u :: rest) = ⟨[], u :: rest, false⟩
  ∧ daily_9_msk_job sendOk src t (u :: rest) = ⟨[], u :: rest, false⟩ := by
  have hstep := maybe_send_next_prompt_fail sendOk ps t u (u :: rest) hfail
  have h1 : runUsers sendOk ps t (u :: rest) (u :: rest) =
      ⟨[], u :: rest, false⟩ := by
    simp [runUsers, hstep]
  refine ⟨h1, ?_⟩
  simp only [daily_9_msk_job, hload, db_all_users]
  exact h1

/-- Witness for `C2_amended` at a concrete input. -/
theorem C2_witness :
    runUsers (fun m => match m with | Msg.prompt 1 _ => false | _ => true)
        ["P0", "P1"] 10
        [⟨1, 0, some (StoredTs.valid 0), true, false⟩,
         ⟨2, 0, some (StoredTs.valid 0), true, false⟩]
        [⟨1, 0, some (StoredTs.valid 0), true, false⟩,
         ⟨2, 0, some (StoredTs.valid 0), true, false⟩] =
      ⟨[], [⟨1, 0, some (StoredTs.valid 0), true, false⟩,
            ⟨2, 0, some (StoredTs.valid 0), true, false⟩], false⟩
  ∧ daily_9_msk_job
        (fun m => match m with | Msg.prompt 1 _ => false | _ => true)
        (PromptsSource.present ["P0", "P1"]) 10
        [⟨1, 0, some (StoredTs.valid 0), true, false⟩,
         ⟨2, 0, some (StoredTs.valid 0), true, false⟩] =
      ⟨[], [⟨1, 0, some (StoredTs.valid 0), true, false⟩,
            ⟨2, 0, some (StoredTs.valid 0), true, false⟩], false⟩ :=
  C2_amended (fun m => match m with | Msg.prompt 1 _ => false | _ => true)
    (PromptsSource.present ["P0", "P1"]) ["P0", "P1"] 10
    ⟨1, 0, some (StoredTs.valid 0), true, false⟩
    [⟨2, 0, some (StoredTs.valid 0), true, false⟩]
    (by rfl) (by decide)

/-- C3: for an answered user and a non-empty catalog, the daily advance
sends the prompt at `(promptIndex + 1) % N`, the stored row afterwards
has that index, the send time, `answered = false` and
`reminderSent = false`; iterating the index map N times returns the
original index (cyclic closure). -/
theorem C3_cyclic_advance (ps : List String) (t : Int) (u : UserRecord)
    (db : Db)
    (hans : u.answered = true)
    (hget : db_get_user u.userId db = some u)
    (hidx : u.promptIndex < ps.length) :
    maybe_send_next_prompt sendAlways ps t u db =
      ⟨[Msg.prompt u.userId (ps.getD ((u.promptIndex + 1) % ps.length) "")],
       db_mark_prompt_sent u.userId ((u.promptIndex + 1) % ps.length) t db,
       true⟩
  ∧ db_get_user u.userId
        (db_mark_prompt_sent u.userId ((u.promptIndex + 1) % ps.length) t db) =
      some { u with promptIndex := (u.promptIndex + 1) % ps.length,
                    lastPromptTs := some (StoredTs.valid t),
                    answered := false, reminderSent := false }
  ∧ (fun j => (j + 1) % ps.length)^[ps.length] u.promptIndex =
      u.promptIndex := by
  refine ⟨?_, db_get_user_mark_prompt_sent _ _ _ _ _ hget, ?_⟩
  · simp only [maybe_send_next_prompt, hans, Bool.true_eq_false, if_false,
               sendAlways, if_true]
  · rw [iterate_mod_add ps.length ps.length u.promptIndex hidx,
        Nat.add_mod_right]
    exact Nat.mod_eq_of_lt hidx

/-- Witness for `C3_cyclic_advance` at a concrete input. -/
theorem C3_witness :
    maybe_send_next_prompt sendAlways ["A", "B", "C"] 7
        ⟨5, 1, some (StoredTs.valid 0), true, false⟩
        [⟨5, 1, some (StoredTs.valid 0), true, false⟩] =
      ⟨[Msg.prompt 5 "C"],
       db_mark_prompt_sent 5 2 7
         [⟨5, 1, some (StoredTs.valid 0), true, false⟩], true⟩
  ∧ db_get_user 5 (db_mark_prompt_sent 5 2 7
        [⟨5, 1, some (StoredTs.valid 0), true, false⟩]) =
      some ⟨5, 2, some (StoredTs.valid 7), false, false⟩
  ∧ (fun j => (j + 1) % 3)^[3] 1 = 1 :=
  C3_cyclic_advance ["A", "B", "C"] 7
    ⟨5, 1, some (StoredTs.valid 0), true, false⟩
    [⟨5, 1, some (StoredTs.valid 0), true, false⟩]
    (by decide) (by decide) (by decide)

/-- C4: the state mutation is committed only after a successful send.
Daily advance: if the send of the next prompt fails, the step returns
with the database untouched.  Subscribe: if the send of `catalog[0]`
fails, the handler stops after the `reply.sub` reply and
`db_mark_prompt_sent` is never executed — the record still has
`lastPromptTs` absent. -/
theorem C4_no_commit_on_send_failure (sendOk sendOk2 : Msg → Bool)
    (ps ps2 : List String) (src : PromptsSource) (t t2 : Int) (uid : Nat)
    (u v : UserRecord) (db db2 : Db)
    (hans : u.answered = true)
    (hsend : sendOk (Msg.prompt u.userId
        (ps.getD ((u.promptIndex + 1) % ps.length) "")) = false)
    (hload : load_prompts src = Except.ok ps2)
    (hget : db_get_user uid (db_ensure_user uid db2) = some v)
    (hts : v.lastPromptTs = none)
    (hreply : sendOk2 (Msg.reply uid "reply.sub") = true)
    (hprompt : sendOk2 (Msg.prompt uid (ps2.getD 0 "")) = false) :
    maybe_send_next_prompt sendOk ps t u db = ⟨[], db, false⟩
  ∧ start sendOk2 src t2 uid db2 =
      ⟨[Msg.reply uid "reply.sub"], db_ensure_user uid db2, false⟩ := by
  constructor
  · simp only [maybe_send_next_prompt, hans, Bool.true_eq_false, if_false,
               hsend, Bool.false_eq_true]
  · simp only [start, hload, hget, hts, hreply, if_true, hprompt,
               Bool.false_eq_true, if_false]

/-- Witness for `C4_no_commit_on_send_failure` at a concrete input. -/
theorem C4_witness :
    maybe_send_next_prompt (fun m => match m with | Msg.prompt _ _ => false | _ => true)
        ["P0", "P1"] 9 ⟨1, 0, some (StoredTs.valid 0), true, false⟩
        [⟨1, 0, some (StoredTs.valid 0), true, false⟩] =
      ⟨[], [⟨1, 0, some (StoredTs.valid 0), true, false⟩], false⟩
  ∧ start (fun m => match m with | Msg.prompt _ _ => false | _ => true)
        (PromptsSource.present ["P0", "P1"]) 9 2 [] =
      ⟨[Msg.reply 2 "reply.sub"], db_ensure_user 2 [], false⟩ :=
  C4_no_commit_on_send_failure
    (fun m => match m with | Msg.prompt _ _ => false | _ => true)
    (fun m => match m with | Msg.prompt _ _ => false | _ => true)
    ["P0", "P1"] ["P0", "P1"] (PromptsSource.present ["P0", "P1"]) 9 9 2
    ⟨1, 0, some (StoredTs.valid 0), true, false⟩ (defaultRecord 2)
    [⟨1, 0, some (StoredTs.valid 0), true, false⟩] []
    (by decide) (by decide) (by rfl) (by decide) (by decide)
    (by decide) (by decide)

/-- C5: the reminder scan takes no action (no message, no write) when
`reminderSent` is set, or the prompt is answered, or no prompt was ever
sent, or less than 24 hours have elapsed; with a parseable timestamp, not
answered, no reminder yet and 24h elapsed it sends the reminder and sets
`reminderSent`, after which a later scan of the updated row (same prompt
cycle) takes no action. -/
theorem C5_reminder_once (now now2 now3 : Int) (u v : UserRecord)
    (db db2 db3 : Db) (t0 : Int)
    (hskip : u.reminderSent = true ∨ u.answered = true ∨
      u.lastPromptTs = none ∨
      ∃ s, u.lastPromptTs = some (StoredTs.valid s) ∧ now - s < 24 * 3600)
    (hv1 : v.lastPromptTs = some (StoredTs.valid t0))
    (hv2 : v.answered = false) (hv3 : v.reminderSent = false)
    (hdue : 24 * 3600 ≤ now2 - t0) :
    reminder_scan_step sendAlways now u db = ⟨[], db, true⟩
  ∧ reminder_scan_step sendAlways now2 v db2 =
      ⟨[Msg.reminder v.userId], db_mark_reminder_sent v.userId db2, true⟩
  ∧ reminder_scan_step sendAlways now3 { v with reminderSent := true } db3 =
      ⟨[], db3, true⟩ := by
  refine ⟨?_, ?_, ?_⟩
  · rw [reminder_scan_step_char]
    have hdu : reminderDue now u = false := by
      unfold reminderDue
      rcases hskip with h | h | h | ⟨s, hts, hlt⟩
      · cases hts : u.lastPromptTs with
        | none => rfl
        | some ts => cases ts <;> simp [h]
      · cases hts : u.lastPromptTs with
        | none => rfl
        | some ts => cases ts <;> simp [h]
      · rw [h]
      · rw [hts]
        simp only [Bool.and_eq_false_iff]
        right
        simpa using Int.not_le.mpr hlt
    simp [hdu]
  · rw [reminder_scan_step_char]
    have hdv : reminderDue now2 v = true := by
      unfold reminderDue
      rw [hv1]
      simp only [hv2, hv3, Bool.not_false, Bool.and_self, Bool.true_and,
                 decide_eq_true_eq]
      omega
    simp [hdv]
  · rw [reminder_scan_step_char]
    have hdw : reminderDue now3 { v with reminderSent := true } = false := by
      unfold reminderDue
      obtain ⟨a, b, c, d, e⟩ := v
      cases hts : c with
      | none => rfl
      | some ts => cases ts <;> simp
    simp [hdw]

/-- Witness for `C5_reminder_once` at a concrete input. -/
theorem C5_witness :
    reminder_scan_step sendAlways 1000 ⟨3, 0, some (StoredTs.valid 0), false, true⟩
        [⟨3, 0, some (StoredTs.valid 0), false, true⟩] =
      ⟨[], [⟨3, 0, some (StoredTs.valid 0), false, true⟩], true⟩
  ∧ reminder_scan_step sendAlways 90000 ⟨4, 0, some (StoredTs.valid 0), false, false⟩
        [⟨4, 0, some (StoredTs.valid 0), false, false⟩] =
      ⟨[Msg.reminder 4],
       db_mark_reminder_sent 4 [⟨4, 0, some (StoredTs.valid 0), false, false⟩],
       true⟩
  ∧ reminder_scan_step sendAlways 90001 ⟨4, 0, some (StoredTs.valid 0), false, true⟩
        [⟨4, 0, some (StoredTs.valid 0), false, true⟩] =
      ⟨[], [⟨4, 0, some (StoredTs.valid 0), false, true⟩], true⟩ :=
  C5_reminder_once 1000 90000 90001
    ⟨3, 0, some (StoredTs.valid 0), false, true⟩
    ⟨4, 0, some (StoredTs.valid 0), false, false⟩
    [⟨3, 0, some (StoredTs.valid 0), false, true⟩]
    [⟨4, 0, some (StoredTs.valid 0), false, false⟩]
    [⟨4, 0, some (StoredTs.valid 0), false, true⟩] 0
    (Or.inl (by decide)) (by decide) (by decide) (by decide) (by decide)

/-- C6, counterexample: `main()` starts the process (and schedules the
daily job) without ever reading the prompt catalog — startup succeeds
even when `prompts.json` is missing, although `load_prompts` on a missing
file raises.  So the catalog is not loaded once at process start, and a
missing/empty catalog is not startup-fatal. -/
theorem C6_counterexample :
    main_startup true (some "TOKEN") PromptsSource.missing =
      Except.ok [Effect.loadLocales, Effect.dbInit, Effect.addHandlers,
                 Effect.scheduleDailyJob, Effect.runPolling]
  ∧ Effect.loadCatalog ∉ [Effect.loadLocales, Effect.dbInit,
      Effect.addHandlers, Effect.scheduleDailyJob, Effect.runPolling]
  ∧ load_prompts PromptsSource.missing =
      Except.error "FileNotFoundError" :=
  ⟨by rfl, by decide, by rfl⟩

/-- C6 (amended): the catalog is read from `prompts.json` at point of use
— by each daily dispatch and each `/start` — not at startup: `main`'s
behaviour is independent of the catalog source, a successful
`load_prompts` never yields an empty catalog, and when the catalog is
missing/malformed/empty at use time the daily job (resp. `/start`)
raises, sending nothing and changing no prompt state, so no prompt cycle
ever runs with zero prompts. -/
theorem C6_amended (d : Bool) (tok : Option String)
    (src src2 src3 : PromptsSource) (ps : List String) (e : String)
    (t t2 : Int) (db db2 : Db) (sendOk sendOk2 : Msg → Bool) (uid : Nat)
    (hok : load_prompts src = Except.ok ps)
    (herr : load_prompts src3 = Except.error e) :
    main_startup d tok src = main_startup d tok src2
  ∧ ps ≠ []
  ∧ daily_9_msk_job sendOk src3 t db = ⟨[], db, false⟩
  ∧ start sendOk2 src3 t2 uid db2 = ⟨[], db_ensure_user uid db2, false⟩ := by
  refine ⟨rfl, load_prompts_ok_ne_nil src ps hok, ?_, ?_⟩
  · simp only [daily_9_msk_job, herr]
  · simp only [start, herr]

/-- Witness for `C6_amended` at a concrete input. -/
theorem C6_witness :
    main_startup true (some "TOKEN") (PromptsSource.present ["P0"]) =
      main_startup true (some "TOKEN") PromptsSource.missing
  ∧ ["P0"] ≠ ([] : List String)
  ∧ daily_9_msk_job sendAlways PromptsSource.missing 0
      [⟨1, 0, some (StoredTs.valid 0), true, false⟩] =
      ⟨[], [⟨1, 0, some (StoredTs.valid 0), true, false⟩], false⟩
  ∧ start sendAlways PromptsSource.missing 0 1 [] =
      ⟨[], db_ensure_user 1 [], false⟩ :=
  C6_amended true (some "TOKEN") (PromptsSource.present ["P0"])
    PromptsSource.missing PromptsSource.missing ["P0"] "FileNotFoundError"
    0 0 [⟨1, 0, some (StoredTs.valid 0), true, false⟩] []
    sendAlways sendAlways 1 (by rfl) (by rfl)

/-- C7: a row whose stored timestamp does not parse is skipped by the
reminder scan — the scan finishes without an exception, that row is
unchanged in the final table, and the other users receive exactly the
messages they would receive if the corrupt row were not in the batch. -/
theorem C7_corrupt_row_isolated (now : Int) (pre post : List UserRecord)
    (c : UserRecord)
    (hc : c.lastPromptTs = some StoredTs.corrupt)
    (hids : ∀ r ∈ pre ++ post, r.userId ≠ c.userId) :
    (reminder_scan_job sendAlways now (pre ++ c :: post)).msgs =
      (reminder_scan_job sendAlways now (pre ++ post)).msgs
  ∧ (reminder_scan_job sendAlways now (pre ++ c :: post)).ok = true
  ∧ db_get_user c.userId
        (reminder_scan_job sendAlways now (pre ++ c :: post)).db = some c := by
  have hdc : reminderDue now c = false := by
    unfold reminderDue
    rw [hc]
  refine ⟨?_, ?_, ?_⟩
  · rw [reminder_scan_job, reminder_scan_job, db_all_users, db_all_users,
        reminderRun_char, reminderRun_char]
    simp [List.filterMap_append, List.filterMap_cons, dueMsg, hdc]
  · rw [reminder_scan_job, db_all_users, reminderRun_char]
  · rw [reminder_scan_job, db_all_users, reminderRun_char]
    have hall : ∀ r ∈ pre ++ c :: post, reminderDue now r = true →
        r.userId ≠ c.userId := by
      intro r hr hdr
      rcases List.mem_append.mp hr with hpre | hcpost
      · exact hids r (List.mem_append.mpr (Or.inl hpre))
      · rcases List.mem_cons.mp hcpost with hrc | hpost
        · subst hrc
          rw [hdc] at hdr
          cases hdr
        · exact hids r (List.mem_append.mpr (Or.inr hpost))
    rw [db_get_user_applyDue now c.userId (pre ++ c :: post) _ hall]
    have hpre_none : db_get_user c.userId pre = none :=
      db_get_user_of_all_ne c.userId pre
        (fun r hr => hids r (List.mem_append.mpr (Or.inl hr)))
    rw [db_get_user_append_of_none c.userId pre (c :: post) hpre_none,
        db_get_user_cons]
    simp

/-- Witness for `C7_corrupt_row_isolated` at a concrete input. -/
theorem C7_witness :
    (reminder_scan_job sendAlways 90000
        [⟨1, 0, some (StoredTs.valid 0), false, false⟩,
         ⟨9, 0, some StoredTs.corrupt, false, false⟩,
         ⟨2, 0, some (StoredTs.valid 0), false, false⟩]).msgs =
      (reminder_scan_job sendAlways 90000
        [⟨1, 0, some (StoredTs.valid 0), false, false⟩,
         ⟨2, 0, some (StoredTs.valid 0), false, false⟩]).msgs
  ∧ (reminder_scan_job sendAlways 90000
        [⟨1, 0, some (StoredTs.valid 0), false, false⟩,
         ⟨9, 0, some StoredTs.corrupt, false, false⟩,
         ⟨2, 0, some (StoredTs.valid 0), false, false⟩]).ok = true
  ∧ db_get_user 9 (reminder_scan_job sendAlways 90000
        [⟨1, 0, some (StoredTs.valid 0), false, false⟩,
         ⟨9, 0, some StoredTs.corrupt, false, false⟩,
         ⟨2, 0, some (StoredTs.valid 0), false, false⟩]).db =
      some ⟨9, 0, some StoredTs.corrupt, false, false⟩ :=
  C7_corrupt_row_isolated 90000
    [⟨1, 0, some (StoredTs.valid 0), false, false⟩]
    [⟨2, 0, some (StoredTs.valid 0), false, false⟩]
    ⟨9, 0, some StoredTs.corrupt, false, false⟩
    (by decide) (by decide)

/-- C8: the acknowledge handler replies in every case; it changes no state
when the user was never prompted (`lastPromptTs` absent) or the prompt is
already answered, and otherwise sets `answered = true`; a second
application right after leaves `answered = true` again, changes nothing
further and still replies. -/
theorem C8_acknowledge_idempotent (uid1 uid2 uid3 : Nat)
    (db1 db2 db3 : Db) (u v w : UserRecord) (ts1 ts2 : StoredTs)
    (hu : db_get_user uid1 db1 = some u) (hu2 : u.lastPromptTs = none)
    (hv : db_get_user uid2 db2 = some v)
    (hv2 : v.lastPromptTs = some ts1) (hv3 : v.answered = true)
    (hw : db_get_user uid3 db3 = some w)
    (hw2 : w.lastPromptTs = some ts2) (hw3 : w.answered = false) :
    on_text sendAlways uid1 db1 =
      ⟨[Msg.reply uid1 "reply.err.noinitprompt"], db1, true⟩
  ∧ on_text sendAlways uid2 db2 =
      ⟨[Msg.reply uid2 "reply.complete.received"], db2, true⟩
  ∧ on_text sendAlways uid3 db3 =
      ⟨[Msg.reply uid3 "reply.complete.received"],
       db_mark_answered uid3 db3, true⟩
  ∧ db_get_user uid3 (db_mark_answered uid3 db3) =
      some { w with answered := true }
  ∧ on_text sendAlways uid3 (db_mark_answered uid3 db3) =
      ⟨[Msg.reply uid3 "reply.complete.received"],
       db_mark_answered uid3 db3, true⟩ := by
  have hmark := db_get_user_mark_answered uid3 db3 w hw
  refine ⟨?_, ?_, ?_, hmark, ?_⟩
  · simp only [on_text, db_ensure_user_of_some uid1 db1 u hu, hu, hu2,
               sendAlways, if_true]
  · simp only [on_text, db_ensure_user_of_some uid2 db2 v hv, hv, hv2, hv3,
               sendAlways, if_true]
  · simp only [on_text, db_ensure_user_of_some uid3 db3 w hw, hw, hw2, hw3,
               sendAlways, if_true, Bool.false_eq_true, if_false]
  · have hens := db_ensure_user_of_some uid3 (db_mark_answered uid3 db3)
      { w with answered := true } hmark
    have hts' : ({ w with answered := true } : UserRecord).lastPromptTs =
        some ts2 := by
      obtain ⟨a, b, c, d, e⟩ := w
      simpa using hw2
    have hans' : ({ w with answered := true } : UserRecord).answered = true := by
      obtain ⟨a, b, c, d, e⟩ := w
      rfl
    simp only [on_text, hens, hmark, hts', hans', sendAlways, if_true]
    rw [hw2]

/-- Witness for `C8_acknowledge_idempotent` at a concrete input. -/
theorem C8_witness :
    on_text sendAlways 1 [⟨1, 0, none, false, false⟩] =
      ⟨[Msg.reply 1 "reply.err.noinitprompt"],
       [⟨1, 0, none, false, false⟩], true⟩
  ∧ on_text sendAlways 2 [⟨2, 0, some (StoredTs.valid 0), true, false⟩] =
      ⟨[Msg.reply 2 "reply.complete.received"],
       [⟨2, 0, some (StoredTs.valid 0), true, false⟩], true⟩
  ∧ on_text sendAlways 3 [⟨3, 0, some (StoredTs.valid 0), false, false⟩] =
      ⟨[Msg.reply 3 "reply.complete.received"],
       db_mark_answered 3 [⟨3, 0, some (StoredTs.valid 0), false, false⟩],
       true⟩
  ∧ db_get_user 3
        (db_mark_answered 3 [⟨3, 0, some (StoredTs.valid 0), false, false⟩]) =
      some ⟨3, 0, some (StoredTs.valid 0), true, false⟩
  ∧ on_text sendAlways 3
        (db_mark_answered 3 [⟨3, 0, some (StoredTs.valid 0), false, false⟩]) =
      ⟨[Msg.reply 3 "reply.complete.received"],
       db_mark_answered 3 [⟨3, 0, some (StoredTs.valid 0), false, false⟩],
       true⟩ :=
  C8_acknowledge_idempotent 1 2 3
    [⟨1, 0, none, false, false⟩]
    [⟨2, 0, some (StoredTs.valid 0), true, false⟩]
    [⟨3, 0, some (StoredTs.valid 0), false, false⟩]
    ⟨1, 0, none, false, false⟩
    ⟨2, 0, some (StoredTs.valid 0), true, false⟩
    ⟨3, 0, some (StoredTs.valid 0), false, false⟩
    (StoredTs.valid 0) (StoredTs.valid 0)
    (by decide) (by decide) (by decide) (by decide) (by decide)
    (by decide) (by decide) (by decide)

/-- C9: `/stop` deletes the user's row unconditionally from any state and
is idempotent (no error when the row is absent); afterwards the user is
indistinguishable from a new one: ensure recreates the default row
(`promptIndex = 0`, `lastPromptTs` absent, `answered = false`,
`reminderSent = false`), `/start` takes the bootstrap branch sending
`catalog[0]`, and free text gets the "no active prompt" reply. -/
theorem C9_unsubscribe_resets (uid : Nat) (db : Db) (src : PromptsSource)
    (ps : List String) (t : Int)
    (hload : load_prompts src = Except.ok ps) :
    stop sendAlways uid db =
      ⟨[Msg.reply uid "reply.unsub"], db_delete_user uid db, true⟩
  ∧ db_get_user uid (db_delete_user uid db) = none
  ∧ stop sendAlways uid (db_delete_user uid db) =
      ⟨[Msg.reply uid "reply.unsub"], db_delete_user uid db, true⟩
  ∧ db_get_user uid (db_ensure_user uid (db_delete_user uid db)) =
      some (defaultRecord uid)
  ∧ start sendAlways src t uid (db_delete_user uid db) =
      ⟨[Msg.reply uid "reply.sub", Msg.prompt uid (ps.getD 0 "")],
       db_mark_prompt_sent uid 0 t
         (db_ensure_user uid (db_delete_user uid db)), true⟩
  ∧ on_text sendAlways uid (db_delete_user uid db) =
      ⟨[Msg.reply uid "reply.err.noinitprompt"],
       db_ensure_user uid (db_delete_user uid db), true⟩ := by
  have hnone := db_get_user_delete_self uid db
  have hfresh := db_get_user_ensure_of_none uid (db_delete_user uid db) hnone
  have hdefts : (defaultRecord uid).lastPromptTs = none := rfl
  refine ⟨?_, hnone, ?_, hfresh, ?_, ?_⟩
  · simp only [stop, sendAlways, if_true]
  · simp only [stop, sendAlways, if_true, db_delete_user_idem]
  · simp only [start, hload, hfresh, hdefts, sendAlways, if_true]
  · simp only [on_text, hfresh, hdefts, sendAlways, if_true]

/-- Witness for `C9_unsubscribe_resets` at a concrete input. -/
theorem C9_witness :
    stop sendAlways 4 [⟨4, 2, some (StoredTs.valid 5), true, true⟩] =
      ⟨[Msg.reply 4 "reply.unsub"],
       db_delete_user 4 [⟨4, 2, some (StoredTs.valid 5), true, true⟩], true⟩
  ∧ db_get_user 4
        (db_delete_user 4 [⟨4, 2, some (StoredTs.valid 5), true, true⟩]) = none
  ∧ stop sendAlways 4
        (db_delete_user 4 [⟨4, 2, some (StoredTs.valid 5), true, true⟩]) =
      ⟨[Msg.reply 4 "reply.unsub"],
       db_delete_user 4 [⟨4, 2, some (StoredTs.valid 5), true, true⟩], true⟩
  ∧ db_get_user 4 (db_ensure_user 4
        (db_delete_user 4 [⟨4, 2, some (StoredTs.valid 5), true, true⟩])) =
      some (defaultRecord 4)
  ∧ start sendAlways (PromptsSource.present ["P0"]) 6 4
        (db_delete_user 4 [⟨4, 2, some (StoredTs.valid 5), true, true⟩]) =
      ⟨[Msg.reply 4 "reply.sub", Msg.prompt 4 "P0"],
       db_mark_prompt_sent 4 0 6 (db_ensure_user 4
         (db_delete_user 4 [⟨4, 2, some (StoredTs.valid 5), true, true⟩])),
       true⟩
  ∧ on_text sendAlways 4
        (db_delete_user 4 [⟨4, 2, some (StoredTs.valid 5), true, true⟩]) =
      ⟨[Msg.reply 4 "reply.err.noinitprompt"],
       db_ensure_user 4
         (db_delete_user 4 [⟨4, 2, some (StoredTs.valid 5), true, true⟩]),
       true⟩ :=
  C9_unsubscribe_resets 4 [⟨4, 2, some (StoredTs.valid 5), true, true⟩]
    (PromptsSource.present ["P0"]) ["P0"] 6 (by rfl)

/-- C10: `/start` for a user whose row already has a `lastPromptTs` leaves
the whole table (hence that row) unchanged and sends only the
"already subscribed" reply — no prompt message, no field modified. -/
theorem C10_start_already_subscribed (uid : Nat) (db : Db) (u : UserRecord)
    (ts : StoredTs) (src : PromptsSource) (ps : List String) (t : Int)
    (hload : load_prompts src = Except.ok ps)
    (hget : db_get_user uid db = some u)
    (hts : u.lastPromptTs = some ts) :
    start sendAlways src t uid db =
      ⟨[Msg.reply uid "reply.err.alreadysub"], db, true⟩ := by
  have hens := db_ensure_user_of_some uid db u hget
  simp only [start, hens, hload, hget, hts, sendAlways, if_true]

/-- Witness for `C10_start_already_subscribed` at a concrete input. -/
theorem C10_witness :
    start sendAlways (PromptsSource.present ["P0"]) 9 7
        [⟨7, 1, some (StoredTs.valid 3), false, false⟩] =
      ⟨[Msg.reply 7 "reply.err.alreadysub"],
       [⟨7, 1, some (StoredTs.valid 3), false, false⟩], true⟩ :=
  C10_start_already_subscribed 7
    [⟨7, 1, some (StoredTs.valid 3), false, false⟩]
    ⟨7, 1, some (StoredTs.valid 3), false, false⟩ (StoredTs.valid 3)
    (PromptsSource.present ["P0"]) ["P0"] 9
    (by rfl) (by decide) (by decide)

end WPBot
